import Mathlib

/-!
Verification of the ChiveSave artifact version registry backend.

This file gives a shallow embedding, in Lean 4, of the version-lifecycle
core of the backend: the path manipulation used to place artifact files
(`os.path.join`, `os.path.basename`, `os.path.splitext`), a durable
filesystem modelled as an association list from paths to byte contents,
the relational versions table with its UNIQUE(name) constraint, the CRUD
layer (`create_version`, `get_version`, `get_versions`, `restore_version`
from `crud.py` / `app/crud/versions.py`), the storage service
(`app/services/artifact_storage.py`), the HTTP endpoints
(`save_artifact_version`, `restore_artifact_version`,
`login_for_access_token`), and the user table lookup.

Machine-level conventions: paths are lists of characters, byte contents
are lists of naturals, the server clock and the generated UUID token are
explicit inputs (they come from the environment in the original code),
JSON parsing (`json.loads`, an external library call) is a parameter of
the endpoint, and HTTP error responses are `Except Nat` values carrying
the status code raised by the corresponding `HTTPException`.
-/

namespace ChiveSave

/-- A filesystem path, as the list of its characters. -/
abbrev FPath := List Char

/-- File contents, as a list of bytes. -/
abbrev Bytes := List Nat

/-- Constant `ARTIFACTS_DIR = "artifacts"` from `crud.py` and
`app/services/artifact_storage.py`. -/
def ARTIFACTS_DIR : FPath := "artifacts".data

/-- Constant `CURRENT_ACTIVE_ARTIFACT_DIR = "current_active_artifact"` from `crud.py`
and `app/services/artifact_storage.py`. -/
def CURRENT_ACTIVE_ARTIFACT_DIR : FPath := "current_active_artifact".data

/-- Embedding of POSIX `os.path.join(a, b)`: if `b` is absolute it wins;
otherwise `b` is appended after a separator unless `a` is empty or already
ends with one. -/
def os_path_join (a b : FPath) : FPath :=
  if b.head? = some '/' then b
  else if a = [] then a ++ b
  else if a.getLast? = some '/' then a ++ b
  else a ++ '/' :: b

/-- Embedding of POSIX `os.path.basename(p)`: the suffix of `p` after the
last separator. -/
def os_path_basename (p : FPath) : FPath :=
  (p.reverse.takeWhile (fun c => c ≠ '/')).reverse

/-- The extension component of POSIX `os.path.splitext(p)` (the second
element of the returned pair): the part of the basename of `p` from its
last dot on, unless every character before that dot is itself a dot
(leading dots of a basename never start an extension). -/
def os_path_splitext_ext (p : FPath) : FPath :=
  let bn := os_path_basename p
  let revExt := bn.reverse.takeWhile (fun c => c ≠ '.')
  if revExt.length = bn.length then []
  else if (bn.take (bn.length - revExt.length - 1)).all (fun c => c = '.') then []
  else '.' :: revExt.reverse

/-- Function `dropDir dir p` strips the directory `dir` and the following separator
from the front of `p`; `none` when `p` does not start with `dir ++ "/"`. -/
def dropDir : FPath → FPath → Option FPath
  | [], '/' :: rest => some rest
  | [], _ => none
  | _ :: _, [] => none
  | d :: ds, c :: cs => if d = c then dropDir ds cs else none

/-- Predicate deciding whether `p` names a direct entry of directory `dir` (what `os.listdir(dir)`
together with the `os.path.isfile` check ranges over). -/
def inDir (dir p : FPath) : Bool :=
  match dropDir dir p with
  | some rest => !(rest.contains '/')
  | none => false

/-- The durable filesystem: an association list from full paths to byte
contents. Every entry is a regular file. -/
abbrev FS := List (FPath × Bytes)

/-- Reading a file: the first entry whose path matches. -/
def fsRead (fs : FS) (p : FPath) : Option Bytes :=
  (fs.find? (fun e => e.1 = p)).map (fun e => e.2)

/-- Writing (creating or truncating) a file, as `open(path, "wb")` does. -/
def fsWrite (fs : FS) (p : FPath) (b : Bytes) : FS :=
  (p, b) :: fs.filter (fun e => ¬(e.1 = p))

/-- Unlinking every direct file entry of `dir`: the clearing loop of
`restore_version` / `restore_artifact_file`. -/
def clearDir (dir : FPath) (fs : FS) : FS :=
  fs.filter (fun e => !(inDir dir e.1))

/-- The direct file entries of `dir`. -/
def filesIn (dir : FPath) (fs : FS) : FS :=
  fs.filter (fun e => inDir dir e.1)

/-- A structured JSON-like document, the possible result of parsing a
metadata text (the `JSONB` column / `Dict[str, Any]` metadata field). -/
inductive Jx where
  | jnull : Jx
  | jbool (b : Bool) : Jx
  | jnum (n : Int) : Jx
  | jstr (s : String) : Jx
  | jarr (elems : List Jx) : Jx
  | jobj (fields : List (String × Jx)) : Jx

/-- The request body of a create (`VersionCreate` in `models.py`). -/
structure VersionCreate where
  name : String
  description : Option String
  metadata : Option Jx

/-- A row of the `versions` table (`Version` in `models.py`):
`id SERIAL PRIMARY KEY, name UNIQUE, description, artifact_path,
created_at, metadata`. -/
structure VersionRow where
  id : Nat
  name : String
  description : Option String
  artifact_path : FPath
  created_at : Nat
  metadata : Option Jx

/-- The state of the `versions` table: rows in insertion order, plus the
`SERIAL` sequence counter. -/
structure DB where
  versions : List VersionRow
  nextId : Nat

/-- Embedding of `crud.create_version` (and the `INSERT ... RETURNING`
it performs): build `artifact_path` by joining `ARTIFACTS_DIR` with the
generated filename, then insert, failing with status 409 when the
UNIQUE(name) constraint is violated. `now` is the server clock read that
fills `created_at DEFAULT CURRENT_TIMESTAMP`. -/
def create_version (db : DB) (now : Nat) (version : VersionCreate)
    (artifact_filename : FPath) : Except Nat (VersionRow × DB) :=
  let artifact_path := os_path_join ARTIFACTS_DIR artifact_filename
  if db.versions.any (fun r => r.name = version.name) then
    .error 409
  else
    let row : VersionRow :=
      { id := db.nextId, name := version.name, description := version.description,
        artifact_path := artifact_path, created_at := now, metadata := version.metadata }
    .ok (row, { versions := db.versions ++ [row], nextId := db.nextId + 1 })

/-- Embedding of `crud.get_version`: `SELECT ... WHERE id = $1`. -/
def get_version (db : DB) (version_id : Nat) : Option VersionRow :=
  db.versions.find? (fun r => r.id = version_id)

/-- The ordering the query `ORDER BY created_at DESC` establishes between
retained rows: a row sorts before another when the other's timestamp is
no larger. -/
def newest_first (a b : VersionRow) : Prop :=
  b.created_at ≤ a.created_at

instance : DecidableRel newest_first :=
  fun a b => Nat.decLe b.created_at a.created_at

instance : IsTotal VersionRow newest_first :=
  ⟨fun a b => Nat.le_total b.created_at a.created_at⟩

instance : IsTrans VersionRow newest_first :=
  ⟨fun _ _ _ hab hbc => Nat.le_trans hbc hab⟩

/-- Embedding of `crud.get_versions`: `SELECT ... ORDER BY created_at
DESC`. The query specifies no tie-break, so the model realizes the
stable execution: rows with equal `created_at` keep table order. -/
def get_versions (db : DB) : List VersionRow :=
  List.insertionSort newest_first db.versions

/-- Modelled from the spec: the ordering §4.2 prescribes for `list_all` —
strictly descending `created_at`, ties broken by descending `id` (the
repository's query has no such tie-break; this definition exists to be
compared against `get_versions`). -/
def spec_newest_first (a b : VersionRow) : Prop :=
  b.created_at < a.created_at ∨ (b.created_at = a.created_at ∧ b.id ≤ a.id)

instance : DecidableRel spec_newest_first := fun a b => by
  unfold spec_newest_first; infer_instance

/-- Modelled from the spec: `list_all` as §4.2 words it, sorting by
`spec_newest_first`. -/
def spec_list_all (db : DB) : List VersionRow :=
  List.insertionSort spec_newest_first db.versions

/-- The strict total order the claim about `list_all` asserts between
consecutive results: strictly newer first, ties strictly descending by id. -/
def claimStrictOrder (a b : VersionRow) : Prop :=
  b.created_at < a.created_at ∨ (b.created_at = a.created_at ∧ b.id < a.id)

instance : DecidableRel claimStrictOrder := fun a b => by
  unfold claimStrictOrder; infer_instance

/-- Result of `restore_version` / the restore endpoint: `None` from an
unknown id (the endpoint turns it into a 404), an `HTTPException` status
from a failed copy, or the destination path on success. -/
inductive RestoreRes where
  | notFound : RestoreRes
  | failed (status : Nat) : RestoreRes
  | restored (dest : FPath) : RestoreRes
deriving DecidableEq

/-- Embedding of `crud.restore_version`: look the version up by id
(returning `notFound` with the filesystem untouched when absent), unlink
every file directly inside `CURRENT_ACTIVE_ARTIFACT_DIR`, then copy the
file at `artifact_path` into that directory under its basename
(`shutil.copy`); a missing source makes the copy raise, surfaced as a 500
after the clearing already happened. -/
def restore_version (db : DB) (fs : FS) (version_id : Nat) : RestoreRes × FS :=
  match get_version db version_id with
  | none => (.notFound, fs)
  | some version =>
    let fs1 := clearDir CURRENT_ACTIVE_ARTIFACT_DIR fs
    let destination_path :=
      os_path_join CURRENT_ACTIVE_ARTIFACT_DIR (os_path_basename version.artifact_path)
    match fsRead fs1 version.artifact_path with
    | none => (.failed 500, fs1)
    | some contents => (.restored destination_path, fsWrite fs1 destination_path contents)

/-- Field `artifact_path` as built by `crud.create_version`:
`os.path.join(ARTIFACTS_DIR, artifact_filename)`. -/
def crud_artifact_path (artifact_filename : FPath) : FPath :=
  os_path_join ARTIFACTS_DIR artifact_filename

/-- Field `artifact_path` as built by `app/crud/versions.create_version`:
the f-string `artifact_base_path ++ "/" ++ artifact_filename`. -/
def app_artifact_path (artifact_base_path artifact_filename : FPath) : FPath :=
  artifact_base_path ++ '/' :: artifact_filename

/-- An observable storage or ledger operation performed during a
create-version call, recorded in order of execution. -/
inductive Ev where
  | storeWrite (ok : Bool) (p : FPath) : Ev
  | ledgerInsert (name : String) : Ev

/-- The request-independent environment of one create-version call: the
`json.loads` parser, the value drawn from `uuid.uuid4()`, and whether the
archive write's I/O succeeds. -/
structure Env where
  jsonLoads : String → Option Jx
  freshUuid : FPath
  diskFault : Bool

/-- The multipart request of `POST /versions/save`: the `name` query
parameter, the upload's client-supplied filename and content, and the
optional description and metadata-as-text fields. -/
structure SaveReq where
  name : String
  fileName : FPath
  content : Bytes
  description : Option String
  metadata : Option String

/-- The outcome of one create-version call: the HTTP result, the table
and filesystem after the call, and the trace of operations performed. -/
structure SaveOut where
  result : Except Nat VersionRow
  db : DB
  fs : FS
  trace : List Ev

/-- The metadata step of `save_artifact_version`: `if metadata:` (false
for `None` and for the empty string) guards `json.loads(metadata)`, whose
failure raises an `HTTPException` with status 400. -/
def metaParse (jsonLoads : String → Option Jx) : Option String → Except Nat (Option Jx)
  | none => .ok none
  | some m =>
    if m = "" then .ok none
    else
      match jsonLoads m with
      | none => .error 400
      | some j => .ok (some j)

/-- Embedding of the endpoint `save_artifact_version` (identical control
flow in `main.py` and `app/api/v1/endpoints/versions.py`): take the
extension of the client filename with `os.path.splitext`, prepend the
fresh UUID, write the upload into the archive (an I/O fault raises and is
reported as a 500 with nothing else done), then parse the metadata text,
then insert the row via `create_version`. -/
def save_artifact_version (env : Env) (req : SaveReq) (db : DB) (now : Nat)
    (fs : FS) : SaveOut :=
  let file_extension := os_path_splitext_ext req.fileName
  let unique_filename := env.freshUuid ++ file_extension
  let file_path := os_path_join ARTIFACTS_DIR unique_filename
  if env.diskFault then
    { result := .error 500, db := db, fs := fs, trace := [.storeWrite false file_path] }
  else
    let fs1 := fsWrite fs file_path req.content
    match metaParse env.jsonLoads req.metadata with
    | .error s => { result := .error s, db := db, fs := fs1, trace := [.storeWrite true file_path] }
    | .ok parsed_metadata =>
      let version_create : VersionCreate :=
        { name := req.name, description := req.description, metadata := parsed_metadata }
      match create_version db now version_create unique_filename with
      | .error s =>
        { result := .error s, db := db, fs := fs1,
          trace := [.storeWrite true file_path, .ledgerInsert req.name] }
      | .ok (row, db1) =>
        { result := .ok row, db := db1, fs := fs1,
          trace := [.storeWrite true file_path, .ledgerInsert req.name] }

/-- Accumulating check that every `ledgerInsert` in the trace is preceded by an
earlier successful `storeWrite`; the accumulator records whether such a
write has been seen. -/
def writeBeforeInsertAux : Bool → List Ev → Bool
  | _, [] => true
  | seen, .storeWrite ok _ :: rest => writeBeforeInsertAux (seen || ok) rest
  | seen, .ledgerInsert _ :: rest => seen && writeBeforeInsertAux seen rest

/-- Every ledger insert in the trace happens strictly after a successful
archive write. -/
def writeBeforeInsert (tr : List Ev) : Bool :=
  writeBeforeInsertAux false tr

/-- Whether the trace contains any ledger-insert attempt. -/
def hasInsert (tr : List Ev) : Bool :=
  tr.any fun e =>
    match e with
    | .ledgerInsert _ => true
    | _ => false

/-- A row of the `users` table: `id SERIAL, username UNIQUE, email,
hashed_password, disabled, roles` (`UserInDB` in `models.py`). -/
structure UserRow where
  id : Nat
  username : String
  email : Option String
  hashed_password : String
  disabled : Bool
  roles : List String

/-- Embedding of `users.get_user_by_username`:
`SELECT ... FROM users WHERE username = $1`. -/
def get_user_by_username (users : List UserRow) (username : String) : Option UserRow :=
  users.find? (fun u => u.username = username)

/-- Embedding of the endpoint `login_for_access_token`
(`app/api/v1/endpoints/auth.py`): look the user up by the form username;
`if not user or not verify_password(password, user.hashed_password)`
raise 401, otherwise return the freshly created access token with token
type `"bearer"`. The password check and token builder are the external
`passlib`/`jose` collaborators, passed as parameters. -/
def login_for_access_token (verify_password : String → String → Bool)
    (create_access_token : String → List String → String)
    (users : List UserRow) (form_username form_password : String) :
    Except Nat (String × String) :=
  match get_user_by_username users form_username with
  | none => .error 401
  | some user =>
    if verify_password form_password user.hashed_password then
      .ok (create_access_token user.username user.roles, "bearer")
    else
      .error 401

/-! Helper lemmas about the filesystem and path models. -/

/-- Finding under a filter that keeps everything the finder could return. -/
theorem find?_filter_comm {α : Type} (l : List α) (p q : α → Bool)
    (h : ∀ a, q a = true → p a = true) :
    (l.filter p).find? q = l.find? q := by
  induction l with
  | nil => rfl
  | cons a t ih =>
    rw [List.filter_cons]
    by_cases hq : q a = true
    · rw [if_pos (h a hq), List.find?_cons_of_pos _ hq, List.find?_cons_of_pos _ hq]
    · by_cases hp : p a = true
      · rw [if_pos hp, List.find?_cons_of_neg _ hq, List.find?_cons_of_neg _ hq, ih]
      · rw [if_neg hp, ih, List.find?_cons_of_neg _ hq]

/-- Reading back a freshly written file yields its contents. -/
theorem fsRead_fsWrite_self (fs : FS) (p : FPath) (b : Bytes) :
    fsRead (fsWrite fs p b) p = some b := by
  unfold fsRead fsWrite
  rw [List.find?_cons_of_pos _ (by simp)]
  rfl

/-- Writing one file does not change reads of a different path. -/
theorem fsRead_fsWrite_ne (fs : FS) (p q : FPath) (b : Bytes) (h : q ≠ p) :
    fsRead (fsWrite fs p b) q = fsRead fs q := by
  unfold fsRead fsWrite
  rw [List.find?_cons_of_neg _ (by simpa using Ne.symm h), find?_filter_comm]
  intro a ha
  have ha1 : a.1 = q := by simpa using ha
  simp [ha1, h]

/-- Clearing a directory does not change reads outside of it. -/
theorem fsRead_clearDir (dir : FPath) (fs : FS) (p : FPath)
    (h : inDir dir p = false) :
    fsRead (clearDir dir fs) p = fsRead fs p := by
  unfold fsRead clearDir
  rw [find?_filter_comm]
  intro a ha
  have ha1 : a.1 = p := by simpa using ha
  simp [ha1, h]

/-- Stripping a directory from a path that was built under it. -/
theorem dropDir_append (d r : FPath) : dropDir d (d ++ '/' :: r) = some r := by
  induction d with
  | nil => rfl
  | cons c cs ih => simpa [dropDir] using ih

/-- A path inside a nonempty directory starts with the directory's first
character. -/
theorem dropDir_head {d : Char} {ds p r : FPath}
    (h : dropDir (d :: ds) p = some r) : p.head? = some d := by
  cases p with
  | nil => simp [dropDir] at h
  | cons c cs =>
    unfold dropDir at h
    by_cases hc : d = c
    · simp [hc]
    · rw [if_neg hc] at h
      exact absurd h (by simp)

/-- The archive area and the active slot are disjoint directories. -/
theorem not_active_of_archive {p : FPath} (h : inDir ARTIFACTS_DIR p = true) :
    inDir CURRENT_ACTIVE_ARTIFACT_DIR p = false := by
  unfold inDir at h ⊢
  cases harc : dropDir ARTIFACTS_DIR p with
  | none => rw [harc] at h; exact absurd h (by simp)
  | some r =>
    cases hact : dropDir CURRENT_ACTIVE_ARTIFACT_DIR p with
    | none => rfl
    | some r2 =>
      have e1 : ARTIFACTS_DIR = 'a' :: "rtifacts".data := by decide
      have e2 : CURRENT_ACTIVE_ARTIFACT_DIR = 'c' :: "urrent_active_artifact".data := by
        decide
      rw [e1] at harc
      rw [e2] at hact
      have h1 := dropDir_head harc
      have h2 := dropDir_head hact
      rw [h1] at h2
      exact absurd h2 (by simp)

/-- No path can be a direct entry of the archive and of the active slot at
once. -/
theorem archive_active_ne {p q : FPath} (hp : inDir ARTIFACTS_DIR p = true)
    (hq : inDir CURRENT_ACTIVE_ARTIFACT_DIR q = true) : p ≠ q := by
  intro h
  subst h
  rw [not_active_of_archive hp] at hq
  exact Bool.noConfusion hq

/-- The basename of a path contains no separator. -/
theorem basename_no_slash (p : FPath) :
    (os_path_basename p).contains '/' = false := by
  rw [Bool.eq_false_iff]
  intro hc
  have hmem : ('/' : Char) ∈ (p.reverse.takeWhile (fun c => c ≠ '/')).reverse :=
    List.elem_iff.mp hc
  rw [List.mem_reverse] at hmem
  have := List.mem_takeWhile_imp hmem
  simp at this

/-- A separator-free path does not start with a separator. -/
theorem head_ne_slash {bn : FPath} (h : bn.contains '/' = false) :
    bn.head? ≠ some '/' := by
  intro hh
  cases bn with
  | nil => exact absurd hh (by simp)
  | cons c cs =>
    have hc : c = '/' := by simpa using hh
    have : (c :: cs).contains '/' = true := List.elem_iff.mpr (by simp [hc])
    rw [this] at h
    exact Bool.noConfusion h

/-- Joining onto a nonempty directory with no trailing separator and a
relative second component appends with a separator. -/
theorem os_path_join_eq_append {a b : FPath} (hb : b.head? ≠ some '/')
    (ha : a ≠ []) (hl : a.getLast? ≠ some '/') :
    os_path_join a b = a ++ '/' :: b := by
  unfold os_path_join
  rw [if_neg hb, if_neg ha, if_neg hl]

/-- A separator-free filename joined onto a clean directory is a direct
entry of that directory. -/
theorem inDir_join {dir bn : FPath} (hdir : dir ≠ [])
    (hlast : dir.getLast? ≠ some '/') (hbn : bn.contains '/' = false) :
    inDir dir (os_path_join dir bn) = true := by
  rw [os_path_join_eq_append (head_ne_slash hbn) hdir hlast]
  unfold inDir
  rw [dropDir_append]
  simpa using hbn

/-- After clearing a directory and writing one file into it, that file is
the directory's only entry. -/
theorem filesIn_write_clear (dir : FPath) (fs : FS) (p : FPath) (b : Bytes)
    (hp : inDir dir p = true) :
    filesIn dir (fsWrite (clearDir dir fs) p b) = [(p, b)] := by
  unfold filesIn fsWrite clearDir
  rw [List.filter_cons, if_pos (by simpa using hp)]
  congr 1
  rw [List.filter_eq_nil_iff]
  intro a ha hin
  rw [List.mem_filter] at ha
  rw [List.mem_filter] at ha
  have hnot := ha.1.2
  rw [hin] at hnot
  simp at hnot

/-! Claim theorems. -/

/-- C6: restoring a version id that is absent from the ledger returns the
not-found outcome (which the endpoint surfaces as a 404) and has no side
effects: the filesystem, in particular the active slot, is returned
exactly as it was. -/
theorem c6_restore_unknown_id (db : DB) (fs : FS) (version_id : Nat)
    (h : get_version db version_id = none) :
    restore_version db fs version_id = (.notFound, fs) := by
  unfold restore_version
  rw [h]

/-- Witness for C6 at the empty ledger and a one-file filesystem. -/
theorem c6_witness :
    get_version { versions := [], nextId := 1 } 7 = none ∧
      restore_version { versions := [], nextId := 1 }
        [("artifacts/x.bin".data, [1])] 7 =
        (.notFound, [("artifacts/x.bin".data, [1])]) :=
  ⟨rfl, c6_restore_unknown_id { versions := [], nextId := 1 }
    [("artifacts/x.bin".data, [1])] 7 rfl⟩

/-- C2: for a ledger id whose artifact file exists in the archive area,
running restore twice sequentially succeeds both times with the same
active path, and afterwards the active slot holds exactly one file whose
bytes are those of the archived artifact. -/
theorem c2_restore_idempotent (db : DB) (fs : FS) (version_id : Nat)
    (v : VersionRow) (bytes : Bytes)
    (hget : get_version db version_id = some v)
    (harch : inDir ARTIFACTS_DIR v.artifact_path = true)
    (hread : fsRead fs v.artifact_path = some bytes) :
    (restore_version db fs version_id).1 =
      .restored (os_path_join CURRENT_ACTIVE_ARTIFACT_DIR
        (os_path_basename v.artifact_path)) ∧
    (restore_version db (restore_version db fs version_id).2 version_id).1 =
      .restored (os_path_join CURRENT_ACTIVE_ARTIFACT_DIR
        (os_path_basename v.artifact_path)) ∧
    filesIn CURRENT_ACTIVE_ARTIFACT_DIR
        (restore_version db (restore_version db fs version_id).2 version_id).2 =
      [(os_path_join CURRENT_ACTIVE_ARTIFACT_DIR
          (os_path_basename v.artifact_path), bytes)] := by
  have hnact : inDir CURRENT_ACTIVE_ARTIFACT_DIR v.artifact_path = false :=
    not_active_of_archive harch
  have hdest : inDir CURRENT_ACTIVE_ARTIFACT_DIR
      (os_path_join CURRENT_ACTIVE_ARTIFACT_DIR (os_path_basename v.artifact_path)) = true :=
    inDir_join (by decide) (by decide) (basename_no_slash v.artifact_path)
  have hne : v.artifact_path ≠
      os_path_join CURRENT_ACTIVE_ARTIFACT_DIR (os_path_basename v.artifact_path) :=
    archive_active_ne harch hdest
  have h1 : fsRead (clearDir CURRENT_ACTIVE_ARTIFACT_DIR fs) v.artifact_path = some bytes := by
    rw [fsRead_clearDir _ _ _ hnact, hread]
  have hr1 : restore_version db fs version_id =
      (.restored (os_path_join CURRENT_ACTIVE_ARTIFACT_DIR (os_path_basename v.artifact_path)),
        fsWrite (clearDir CURRENT_ACTIVE_ARTIFACT_DIR fs)
          (os_path_join CURRENT_ACTIVE_ARTIFACT_DIR (os_path_basename v.artifact_path)) bytes) := by
    simp only [restore_version, hget, h1]
  have h2 : fsRead (clearDir CURRENT_ACTIVE_ARTIFACT_DIR
      (fsWrite (clearDir CURRENT_ACTIVE_ARTIFACT_DIR fs)
        (os_path_join CURRENT_ACTIVE_ARTIFACT_DIR (os_path_basename v.artifact_path)) bytes))
      v.artifact_path = some bytes := by
    rw [fsRead_clearDir _ _ _ hnact, fsRead_fsWrite_ne _ _ _ _ hne, h1]
  have hr2 : restore_version db
      (fsWrite (clearDir CURRENT_ACTIVE_ARTIFACT_DIR fs)
        (os_path_join CURRENT_ACTIVE_ARTIFACT_DIR (os_path_basename v.artifact_path)) bytes)
      version_id =
      (.restored (os_path_join CURRENT_ACTIVE_ARTIFACT_DIR (os_path_basename v.artifact_path)),
        fsWrite (clearDir CURRENT_ACTIVE_ARTIFACT_DIR
          (fsWrite (clearDir CURRENT_ACTIVE_ARTIFACT_DIR fs)
            (os_path_join CURRENT_ACTIVE_ARTIFACT_DIR (os_path_basename v.artifact_path)) bytes))
          (os_path_join CURRENT_ACTIVE_ARTIFACT_DIR (os_path_basename v.artifact_path)) bytes) := by
    simp only [restore_version, hget, h2]
  refine ⟨by rw [hr1], ?_, ?_⟩
  · rw [hr1, hr2]
  · rw [hr1, hr2]
    exact filesIn_write_clear _ _ _ _ hdest

/-- The one ledger row used by the C2 witness. -/
def c2row : VersionRow :=
  { id := 1, name := "n", description := none,
    artifact_path := "artifacts/w.bin".data, created_at := 0, metadata := none }

/-- The one-row ledger used by the C2 witness. -/
def c2db : DB := { versions := [c2row], nextId := 2 }

/-- The one-file archive used by the C2 witness. -/
def c2fs : FS := [("artifacts/w.bin".data, [1, 2, 3])]

/-- Witness for C2 at a one-row ledger and a one-file archive. -/
theorem c2_witness :
    (restore_version c2db c2fs 1).1 =
      .restored "current_active_artifact/w.bin".data ∧
    filesIn CURRENT_ACTIVE_ARTIFACT_DIR
        (restore_version c2db (restore_version c2db c2fs 1).2 1).2 =
      [("current_active_artifact/w.bin".data, [1, 2, 3])] := by
  have h := c2_restore_idempotent c2db c2fs 1 c2row [1, 2, 3] rfl (by decide) rfl
  have hd : os_path_join CURRENT_ACTIVE_ARTIFACT_DIR
      (os_path_basename c2row.artifact_path) =
      "current_active_artifact/w.bin".data := by decide
  rw [hd] at h
  exact ⟨h.1, h.2.2⟩

/-- The two-row tied ledger used to refute the claimed `list_all` tie-break:
both rows share `created_at = 5`, inserted with ids 1 then 2. -/
def c5db : DB :=
  { versions :=
      [{ id := 1, name := "a", description := none, artifact_path := [],
         created_at := 5, metadata := none },
       { id := 2, name := "b", description := none, artifact_path := [],
         created_at := 5, metadata := none }],
    nextId := 3 }

/-- C5 counterexample: on a ledger with two rows sharing `created_at`, the
query (ORDER BY created_at DESC, with no id tie-break) returns them in
table order [id 1, id 2]; the claimed descending-id tie-break demands
[id 2, id 1], so the result is not ordered by the claimed strict total
order and differs from the spec-worded ordering. -/
theorem c5_counterexample :
    (get_versions c5db).map VersionRow.id = [1, 2] ∧
    (get_versions c5db).map VersionRow.created_at = [5, 5] ∧
    (spec_list_all c5db).map VersionRow.id = [2, 1] ∧
    (get_versions c5db).map VersionRow.id ≠ (spec_list_all c5db).map VersionRow.id := by
  refine ⟨by decide, by decide, by decide, by decide⟩

/-- C5 (amended): `list_all` returns a fully materialized permutation of
all version records sorted descending (non-strictly) by `created_at`;
records with equal `created_at` are in no specified relative order, since
the query carries no id tie-break. -/
theorem c5_list_all_sorted (db : DB) :
    List.Sorted newest_first (get_versions db) ∧
      (get_versions db).Perm db.versions :=
  ⟨List.sorted_insertionSort newest_first db.versions,
    List.perm_insertionSort newest_first db.versions⟩

/-- C8 counterexample: for the same base directory and the same generated
filename, the two `create_version` implementations produce EQUAL
`artifact_path` values (both store the base directory), refuting the
claimed divergence. -/
theorem c8_counterexample :
    crud_artifact_path "u.bin".data = app_artifact_path ARTIFACTS_DIR "u.bin".data := by
  decide

/-- C8 (amended): the two implementations build `artifact_path` by
different syntactic means (`os.path.join` versus string interpolation),
but both store the base directory in the path; for every generated
filename that does not begin with a separator (UUID-stem filenames never
do) they produce equal values. -/
theorem c8_paths_agree (artifact_filename : FPath)
    (h : artifact_filename.head? ≠ some '/') :
    crud_artifact_path artifact_filename =
      app_artifact_path ARTIFACTS_DIR artifact_filename := by
  unfold crud_artifact_path app_artifact_path
  exact os_path_join_eq_append h (by decide) (by decide)

/-- Witness for C8 at a concrete generated filename. -/
theorem c8_witness :
    ("v.bin".data : FPath).head? ≠ some '/' ∧
      crud_artifact_path "v.bin".data = app_artifact_path ARTIFACTS_DIR "v.bin".data :=
  ⟨by decide, c8_paths_agree "v.bin".data (by decide)⟩

/-- C7: the token endpoint returns the bearer access token exactly for
credentials matching a stored user — a username found in the users table
together with a password accepted by the verifier against that user's
stored hash — and a 401 both for an unknown username and for a rejected
password. -/
theorem c7_token_endpoint (verify_password : String → String → Bool)
    (create_access_token : String → List String → String)
    (users : List UserRow) (form_username form_password : String) :
    (∀ user, get_user_by_username users form_username = some user →
      (verify_password form_password user.hashed_password = true →
        login_for_access_token verify_password create_access_token users
            form_username form_password =
          .ok (create_access_token user.username user.roles, "bearer")) ∧
      (verify_password form_password user.hashed_password = false →
        login_for_access_token verify_password create_access_token users
            form_username form_password = .error 401)) ∧
    (get_user_by_username users form_username = none →
      login_for_access_token verify_password create_access_token users
          form_username form_password = .error 401) := by
  constructor
  · intro user hu
    constructor
    · intro hv
      unfold login_for_access_token
      rw [hu]
      simp [hv]
    · intro hv
      unfold login_for_access_token
      rw [hu]
      simp [hv]
  · intro hn
    unfold login_for_access_token
    rw [hn]

/-- The single stored user of the C7 witness. -/
def c7user : UserRow :=
  { id := 1, username := "alice", email := none, hashed_password := "H",
    disabled := false, roles := ["user"] }

/-- Witness for C7: with a one-user table and a verifier accepting exactly
the password "pw" against hash "H", the matching request gets the bearer
token and the mismatching one gets a 401. -/
theorem c7_witness :
    get_user_by_username [c7user] "alice" = some c7user ∧
    login_for_access_token (fun p h => p = "pw" ∧ h = "H") (fun u _ => u)
        [c7user] "alice" "pw" = .ok ("alice", "bearer") ∧
    login_for_access_token (fun p h => p = "pw" ∧ h = "H") (fun u _ => u)
        [c7user] "alice" "bad" = .error 401 := by
  refine ⟨rfl, ?_, ?_⟩
  · exact ((c7_token_endpoint (fun p h => p = "pw" ∧ h = "H") (fun u _ => u)
      [c7user] "alice" "pw").1 c7user rfl).1 (by decide)
  · exact ((c7_token_endpoint (fun p h => p = "pw" ∧ h = "H") (fun u _ => u)
      [c7user] "alice" "bad").1 c7user rfl).2 (by decide)

/-- C1 (amended): a metadata text that fails to parse makes the create
abort with the 400 validation error and creates no ledger row — but only
after the uploaded artifact file has already been written into the
archive, which therefore gains an orphan file; storage is NOT untouched. -/
theorem c1_invalid_metadata (env : Env) (req : SaveReq) (db : DB) (now : Nat)
    (fs : FS) (m : String)
    (hf : env.diskFault = false)
    (hm : req.metadata = some m) (hne : m ≠ "")
    (hp : env.jsonLoads m = none) :
    save_artifact_version env req db now fs =
      { result := .error 400, db := db,
        fs := fsWrite fs (os_path_join ARTIFACTS_DIR
            (env.freshUuid ++ os_path_splitext_ext req.fileName)) req.content,
        trace := [.storeWrite true (os_path_join ARTIFACTS_DIR
            (env.freshUuid ++ os_path_splitext_ext req.fileName))] } := by
  have hmp : metaParse env.jsonLoads req.metadata = .error 400 := by
    rw [hm]
    unfold metaParse
    simp only [if_neg hne, hp]
  simp only [save_artifact_version, hf, Bool.false_eq_true, if_false, hmp]

/-- The environment of the C1 counterexample: a parser rejecting every
text, the UUID draw "aaaa", no disk fault. -/
def c1env : Env :=
  { jsonLoads := fun _ => none, freshUuid := "aaaa".data, diskFault := false }

/-- The request of the C1 counterexample: valid in everything but its
metadata text, which does not parse. -/
def c1req : SaveReq :=
  { name := "model-v1", fileName := "m.bin".data, content := [97, 98, 99],
    description := none, metadata := some "not json" }

/-- C1 counterexample: the create with unparseable metadata reports the
400 and creates no ledger row, yet a file HAS been written to the
archive, contradicting the claim that it aborts before any storage is
touched. -/
theorem c1_counterexample :
    (save_artifact_version c1env c1req { versions := [], nextId := 1 } 5 []).result =
      .error 400 ∧
    (save_artifact_version c1env c1req { versions := [], nextId := 1 } 5 []).db.versions = [] ∧
    fsRead (save_artifact_version c1env c1req { versions := [], nextId := 1 } 5 []).fs
      "artifacts/aaaa.bin".data = some [97, 98, 99] :=
  ⟨rfl, rfl, by decide⟩

/-- The environment of the C1 witness. -/
def c1wenv : Env :=
  { jsonLoads := fun _ => none, freshUuid := "bbbb".data, diskFault := false }

/-- The request of the C1 witness. -/
def c1wreq : SaveReq :=
  { name := "w1", fileName := "n.pt".data, content := [7],
    description := none, metadata := some "oops" }

/-- Witness for the amended C1 at a concrete unparseable-metadata request. -/
theorem c1_witness :
    c1wreq.metadata = some "oops" ∧ "oops" ≠ "" ∧ c1wenv.jsonLoads "oops" = none ∧
    save_artifact_version c1wenv c1wreq { versions := [], nextId := 1 } 3 [] =
      { result := .error 400, db := { versions := [], nextId := 1 },
        fs := fsWrite [] (os_path_join ARTIFACTS_DIR
            (c1wenv.freshUuid ++ os_path_splitext_ext c1wreq.fileName)) c1wreq.content,
        trace := [.storeWrite true (os_path_join ARTIFACTS_DIR
            (c1wenv.freshUuid ++ os_path_splitext_ext c1wreq.fileName))] } :=
  ⟨rfl, by decide, rfl,
    c1_invalid_metadata c1wenv c1wreq { versions := [], nextId := 1 } 3 [] "oops"
      rfl rfl (by decide) rfl⟩

/-- The archive path a create-version call stores its upload at: the
fresh UUID token plus the client filename's extension, under the archive
directory. -/
def archivePathOf (env : Env) (req : SaveReq) : FPath :=
  os_path_join ARTIFACTS_DIR (env.freshUuid ++ os_path_splitext_ext req.fileName)

/-- The row a successful create-version call inserts and returns. -/
def createdRow (env : Env) (req : SaveReq) (db : DB) (now : Nat)
    (pm : Option Jx) : VersionRow :=
  { id := db.nextId, name := req.name, description := req.description,
    artifact_path := archivePathOf env req, created_at := now, metadata := pm }

/-- Shape of a create-version call under a disk fault: 500, nothing else
done. -/
theorem save_fault_eq (env : Env) (req : SaveReq) (db : DB) (now : Nat)
    (fs : FS) (hf : env.diskFault = true) :
    save_artifact_version env req db now fs =
      { result := .error 500, db := db, fs := fs,
        trace := [.storeWrite false (archivePathOf env req)] } := by
  simp only [save_artifact_version, hf, if_true, archivePathOf]

/-- Shape of a create-version call whose metadata step fails: the status
of the metadata failure, the table untouched, the upload already in the
archive. -/
theorem save_badmeta_eq (env : Env) (req : SaveReq) (db : DB) (now : Nat)
    (fs : FS) (s : Nat) (hf : env.diskFault = false)
    (hmp : metaParse env.jsonLoads req.metadata = .error s) :
    save_artifact_version env req db now fs =
      { result := .error s, db := db,
        fs := fsWrite fs (archivePathOf env req) req.content,
        trace := [.storeWrite true (archivePathOf env req)] } := by
  simp only [save_artifact_version, hf, Bool.false_eq_true, if_false, hmp, archivePathOf]

/-- Shape of a create-version call losing on the name uniqueness
constraint: 409, the table untouched, the upload orphaned in the
archive. -/
theorem save_conflict_eq (env : Env) (req : SaveReq) (db : DB) (now : Nat)
    (fs : FS) (pm : Option Jx) (hf : env.diskFault = false)
    (hmp : metaParse env.jsonLoads req.metadata = .ok pm)
    (hdup : db.versions.any (fun r => r.name = req.name) = true) :
    save_artifact_version env req db now fs =
      { result := .error 409, db := db,
        fs := fsWrite fs (archivePathOf env req) req.content,
        trace := [.storeWrite true (archivePathOf env req),
          .ledgerInsert req.name] } := by
  simp only [save_artifact_version, hf, Bool.false_eq_true, if_false, hmp,
    create_version, hdup, if_true, archivePathOf]

/-- Shape of a successful create-version call: the new row is returned
and appended, the upload is in the archive. -/
theorem save_success_eq (env : Env) (req : SaveReq) (db : DB) (now : Nat)
    (fs : FS) (pm : Option Jx) (hf : env.diskFault = false)
    (hmp : metaParse env.jsonLoads req.metadata = .ok pm)
    (hfree : db.versions.any (fun r => r.name = req.name) = false) :
    save_artifact_version env req db now fs =
      { result := .ok (createdRow env req db now pm),
        db := { versions := db.versions ++ [createdRow env req db now pm],
                nextId := db.nextId + 1 },
        fs := fsWrite fs (archivePathOf env req) req.content,
        trace := [.storeWrite true (archivePathOf env req),
          .ledgerInsert req.name] } := by
  simp only [save_artifact_version, hf, Bool.false_eq_true, if_false, hmp,
    create_version, hfree, createdRow, archivePathOf]

/-- C9 (amended): no non-empty validation of `name` exists anywhere on
the create path (`VersionCreate` puts no constraint on the field and the
endpoint performs no check), so an empty-name request is NOT rejected: it
proceeds like any other create — when storage succeeds, the metadata
parses (or is absent) and the empty name is not already taken, the
archive file is written and a ledger row whose name is the empty string
is inserted. -/
theorem c9_empty_name_accepted (env : Env) (req : SaveReq) (db : DB)
    (now : Nat) (fs : FS) (pm : Option Jx)
    (hname : req.name = "")
    (hf : env.diskFault = false)
    (hmp : metaParse env.jsonLoads req.metadata = .ok pm)
    (hfree : db.versions.any (fun r => r.name = req.name) = false) :
    (save_artifact_version env req db now fs).result =
      .ok (createdRow env req db now pm) ∧
    (createdRow env req db now pm).name = "" ∧
    (save_artifact_version env req db now fs).db.versions.length =
      db.versions.length + 1 ∧
    fsRead (save_artifact_version env req db now fs).fs
      (archivePathOf env req) = some req.content := by
  rw [save_success_eq env req db now fs pm hf hmp hfree]
  refine ⟨rfl, ?_, by simp, fsRead_fsWrite_self _ _ _⟩
  simp [createdRow, hname]

/-- The environment of the C9 counterexample. -/
def c9env : Env :=
  { jsonLoads := fun _ => some Jx.jnull, freshUuid := "cccc".data, diskFault := false }

/-- The empty-name request of the C9 counterexample. -/
def c9req : SaveReq :=
  { name := "", fileName := "d.bin".data, content := [1],
    description := none, metadata := none }

/-- C9 counterexample: a create request whose `name` is the empty string
is not rejected before storage is touched: the call succeeds, the archive
receives the file, and the ledger gains a row with empty name. -/
theorem c9_counterexample :
    (save_artifact_version c9env c9req { versions := [], nextId := 1 } 2 []).result =
      .ok { id := 1, name := "", description := none,
            artifact_path := "artifacts/cccc.bin".data, created_at := 2,
            metadata := none } ∧
    (save_artifact_version c9env c9req { versions := [], nextId := 1 } 2
        []).db.versions.map VersionRow.name = [""] ∧
    fsRead (save_artifact_version c9env c9req { versions := [], nextId := 1 } 2 []).fs
      "artifacts/cccc.bin".data = some [1] :=
  ⟨rfl, rfl, by decide⟩

/-- The environment of the C9 witness. -/
def c9wenv : Env :=
  { jsonLoads := fun _ => none, freshUuid := "dddd".data, diskFault := false }

/-- The empty-name request of the C9 witness. -/
def c9wreq : SaveReq :=
  { name := "", fileName := "e.bin".data, content := [9],
    description := none, metadata := none }

/-- Witness for the amended C9 at a concrete empty-name request. -/
theorem c9_witness :
    c9wreq.name = "" ∧
    (save_artifact_version c9wenv c9wreq { versions := [], nextId := 1 } 4 []).result =
      .ok (createdRow c9wenv c9wreq { versions := [], nextId := 1 } 4 none) ∧
    (createdRow c9wenv c9wreq { versions := [], nextId := 1 } 4 none).name = "" ∧
    fsRead (save_artifact_version c9wenv c9wreq { versions := [], nextId := 1 } 4 []).fs
      (archivePathOf c9wenv c9wreq) = some [9] := by
  have h := c9_empty_name_accepted c9wenv c9wreq { versions := [], nextId := 1 } 4 []
    none rfl rfl rfl rfl
  exact ⟨rfl, h.1, h.2.1, h.2.2.2⟩

/-- C10: whenever a create succeeds, the returned row's `artifact_path`
places the stored artifact inside the archive under a filename that is
exactly the environment's fresh UUID token concatenated with the
extension `os.path.splitext` extracts from the client-supplied upload
filename — the stem comes only from the UUID draw, the extension only
from the client filename — and the archive holds the uploaded bytes at
that path. -/
theorem c10_filename_shape (env : Env) (req : SaveReq) (db : DB) (now : Nat)
    (fs : FS) (row : VersionRow)
    (h : (save_artifact_version env req db now fs).result = .ok row) :
    row.artifact_path = os_path_join ARTIFACTS_DIR
        (env.freshUuid ++ os_path_splitext_ext req.fileName) ∧
    fsRead (save_artifact_version env req db now fs).fs row.artifact_path =
      some req.content := by
  by_cases hf : env.diskFault = true
  · rw [save_fault_eq env req db now fs hf] at h
    exact absurd h (by simp)
  · have hf' : env.diskFault = false := by
      cases hfd : env.diskFault
      · rfl
      · exact absurd hfd hf
    cases hmp : metaParse env.jsonLoads req.metadata with
    | error s =>
      rw [save_badmeta_eq env req db now fs s hf' hmp] at h
      exact absurd h (by simp)
    | ok pm =>
      cases hany : db.versions.any (fun r => r.name = req.name) with
      | true =>
        rw [save_conflict_eq env req db now fs pm hf' hmp hany] at h
        exact absurd h (by simp)
      | false =>
        rw [save_success_eq env req db now fs pm hf' hmp hany] at h
        simp only [Except.ok.injEq] at h
        rw [save_success_eq env req db now fs pm hf' hmp hany, ← h]
        exact ⟨rfl, fsRead_fsWrite_self _ _ _⟩

/-- The environment of the C10 witness. -/
def c10env : Env :=
  { jsonLoads := fun _ => none, freshUuid := "eeee".data, diskFault := false }

/-- The request of the C10 witness, with client filename "model.onnx". -/
def c10req : SaveReq :=
  { name := "m1", fileName := "model.onnx".data, content := [2, 3],
    description := none, metadata := none }

/-- Witness for C10: the stored row carries path "artifacts/eeee.onnx":
the UUID stem "eeee" with the client-controlled extension ".onnx". -/
theorem c10_witness :
    (save_artifact_version c10env c10req { versions := [], nextId := 1 } 6 []).result =
      .ok { id := 1, name := "m1", description := none,
            artifact_path := "artifacts/eeee.onnx".data, created_at := 6,
            metadata := none } ∧
    ({ id := 1, name := "m1", description := none,
       artifact_path := "artifacts/eeee.onnx".data, created_at := 6,
       metadata := none } : VersionRow).artifact_path =
      os_path_join ARTIFACTS_DIR
        (c10env.freshUuid ++ os_path_splitext_ext c10req.fileName) ∧
    fsRead (save_artifact_version c10env c10req { versions := [], nextId := 1 } 6 []).fs
      "artifacts/eeee.onnx".data = some [2, 3] := by
  have h := c10_filename_shape c10env c10req { versions := [], nextId := 1 } 6 []
    { id := 1, name := "m1", description := none,
      artifact_path := "artifacts/eeee.onnx".data, created_at := 6,
      metadata := none } rfl
  exact ⟨rfl, h.1, h.2⟩

/-- C4: within every single create-version call the archive file write
strictly precedes the ledger insert in the operation trace, and when the
file write fails the call aborts with the 500 storage error, the ledger
is untouched and no insert is even attempted. -/
theorem c4_write_precedes_insert (env : Env) (req : SaveReq) (db : DB)
    (now : Nat) (fs : FS) :
    writeBeforeInsert (save_artifact_version env req db now fs).trace = true ∧
    (env.diskFault = true →
      (save_artifact_version env req db now fs).result = .error 500 ∧
      (save_artifact_version env req db now fs).db = db ∧
      hasInsert (save_artifact_version env req db now fs).trace = false) := by
  by_cases hf : env.diskFault = true
  · rw [save_fault_eq env req db now fs hf]
    exact ⟨rfl, fun _ => ⟨rfl, rfl, rfl⟩⟩
  · have hf' : env.diskFault = false := by
      cases hfd : env.diskFault
      · rfl
      · exact absurd hfd hf
    refine ⟨?_, fun hc => absurd hc hf⟩
    cases hmp : metaParse env.jsonLoads req.metadata with
    | error s => rw [save_badmeta_eq env req db now fs s hf' hmp]; rfl
    | ok pm =>
      cases hany : db.versions.any (fun r => r.name = req.name) with
      | true => rw [save_conflict_eq env req db now fs pm hf' hmp hany]; rfl
      | false => rw [save_success_eq env req db now fs pm hf' hmp hany]; rfl

/-- The faulted environment of the C4 witness. -/
def c4env : Env :=
  { jsonLoads := fun _ => none, freshUuid := "ffff".data, diskFault := true }

/-- The request of the C4 witness. -/
def c4req : SaveReq :=
  { name := "x", fileName := "f.bin".data, content := [4],
    description := none, metadata := none }

/-- Witness for C4 at a concrete call whose archive write fails. -/
theorem c4_witness :
    writeBeforeInsert
        (save_artifact_version c4env c4req { versions := [], nextId := 1 } 1 []).trace =
      true ∧
    (save_artifact_version c4env c4req { versions := [], nextId := 1 } 1 []).result =
      .error 500 ∧
    (save_artifact_version c4env c4req { versions := [], nextId := 1 } 1 []).db =
      { versions := [], nextId := 1 } ∧
    hasInsert
        (save_artifact_version c4env c4req { versions := [], nextId := 1 } 1 []).trace =
      false := by
  have h := c4_write_precedes_insert c4env c4req { versions := [], nextId := 1 } 1 []
  exact ⟨h.1, h.2 rfl⟩

/-- A concatenation led by a nonempty separator-free-headed token does not
start with a separator. -/
theorem append_head_ne {u e : FPath} (hu : u ≠ []) (hs : u.head? ≠ some '/') :
    (u ++ e).head? ≠ some '/' := by
  cases u with
  | nil => exact absurd rfl hu
  | cons c cs => simpa using hs

/-- Distinct equal-length UUID tokens give distinct archive paths,
whatever extensions follow them. -/
theorem uuid_paths_ne {u1 u2 e1 e2 : FPath} (hlen : u1.length = u2.length)
    (hne : u1 ≠ u2) (h1 : u1.head? ≠ some '/') (h2 : u2.head? ≠ some '/') :
    os_path_join ARTIFACTS_DIR (u1 ++ e1) ≠ os_path_join ARTIFACTS_DIR (u2 ++ e2) := by
  have hne1 : u1 ≠ [] := by
    intro h0
    have hz : u2 = [] := by
      rw [← List.length_eq_zero, ← hlen, h0]
      rfl
    exact hne (by rw [h0, hz])
  have hne2 : u2 ≠ [] := by
    intro h0
    have hz : u1 = [] := by
      rw [← List.length_eq_zero, hlen, h0]
      rfl
    exact hne (by rw [h0, hz])
  rw [os_path_join_eq_append (append_head_ne hne1 h1) (by decide) (by decide),
    os_path_join_eq_append (append_head_ne hne2 h2) (by decide) (by decide)]
  intro h
  have htail := List.append_cancel_left h
  simp only [List.cons.injEq, true_and] at htail
  exact hne (List.append_inj htail hlen).1

/-- C3: two sequential create attempts racing for the same fresh name
(the serialization the ledger's atomic uniqueness check imposes on any
interleaving): the first succeeds, the second fails with the 409
conflict and adds no ledger row — the table after the second attempt is
exactly the winner's table — while the loser's uploaded file stays in
the archive as an orphan at its own distinct path, next to the winner's
intact file. -/
theorem c3_duplicate_name (env1 env2 : Env) (req1 req2 : SaveReq) (db : DB)
    (now1 now2 : Nat) (fs : FS) (pm1 pm2 : Option Jx)
    (hf1 : env1.diskFault = false) (hf2 : env2.diskFault = false)
    (hmp1 : metaParse env1.jsonLoads req1.metadata = .ok pm1)
    (hmp2 : metaParse env2.jsonLoads req2.metadata = .ok pm2)
    (hsame : req2.name = req1.name)
    (hfree : db.versions.any (fun r => r.name = req1.name) = false)
    (hlen : env1.freshUuid.length = env2.freshUuid.length)
    (hneu : env1.freshUuid ≠ env2.freshUuid)
    (h1s : env1.freshUuid.head? ≠ some '/')
    (h2s : env2.freshUuid.head? ≠ some '/') :
    (save_artifact_version env1 req1 db now1 fs).result =
      .ok (createdRow env1 req1 db now1 pm1) ∧
    (save_artifact_version env2 req2 (save_artifact_version env1 req1 db now1 fs).db
        now2 (save_artifact_version env1 req1 db now1 fs).fs).result = .error 409 ∧
    (save_artifact_version env2 req2 (save_artifact_version env1 req1 db now1 fs).db
        now2 (save_artifact_version env1 req1 db now1 fs).fs).db =
      (save_artifact_version env1 req1 db now1 fs).db ∧
    fsRead (save_artifact_version env2 req2 (save_artifact_version env1 req1 db now1 fs).db
        now2 (save_artifact_version env1 req1 db now1 fs).fs).fs
      (archivePathOf env2 req2) = some req2.content ∧
    fsRead (save_artifact_version env2 req2 (save_artifact_version env1 req1 db now1 fs).db
        now2 (save_artifact_version env1 req1 db now1 fs).fs).fs
      (archivePathOf env1 req1) = some req1.content ∧
    archivePathOf env1 req1 ≠ archivePathOf env2 req2 := by
  have hfree1 : db.versions.any (fun r => r.name = req2.name) = false := by
    rw [hsame]
    exact hfree
  have hs1 := save_success_eq env1 req1 db now1 fs pm1 hf1 hmp1 hfree
  have hdup : ((db.versions ++ [createdRow env1 req1 db now1 pm1]).any
      (fun r => r.name = req2.name)) = true := by
    rw [List.any_append]
    have : (createdRow env1 req1 db now1 pm1).name = req2.name := by
      rw [hsame]
      rfl
    simp [this]
  have hs2 := save_conflict_eq env2 req2
    { versions := db.versions ++ [createdRow env1 req1 db now1 pm1],
      nextId := db.nextId + 1 } now2
    (fsWrite fs (archivePathOf env1 req1) req1.content) pm2 hf2 hmp2 hdup
  have hneq : archivePathOf env1 req1 ≠ archivePathOf env2 req2 :=
    uuid_paths_ne hlen hneu h1s h2s
  refine ⟨?_, ?_, ?_, ?_, ?_, hneq⟩
  · rw [hs1]
  · simp only [hs1, hs2]
  · simp only [hs1, hs2]
  · simp only [hs1, hs2]
    exact fsRead_fsWrite_self _ _ _
  · simp only [hs1, hs2]
    rw [fsRead_fsWrite_ne _ _ _ _ hneq, fsRead_fsWrite_self]

/-- The first (winning) environment of the C3 witness. -/
def c3env1 : Env :=
  { jsonLoads := fun _ => none, freshUuid := "gggg".data, diskFault := false }

/-- The second (losing) environment of the C3 witness. -/
def c3env2 : Env :=
  { jsonLoads := fun _ => none, freshUuid := "hhhh".data, diskFault := false }

/-- The winning request of the C3 witness. -/
def c3req1 : SaveReq :=
  { name := "dup", fileName := "a.bin".data, content := [1],
    description := none, metadata := none }

/-- The losing request of the C3 witness, same name. -/
def c3req2 : SaveReq :=
  { name := "dup", fileName := "b.bin".data, content := [2],
    description := none, metadata := none }

/-- Witness for C3 at two concrete same-name create attempts against an
empty ledger. -/
theorem c3_witness :
    (save_artifact_version c3env1 c3req1 { versions := [], nextId := 1 } 1 []).result =
      .ok (createdRow c3env1 c3req1 { versions := [], nextId := 1 } 1 none) ∧
    (save_artifact_version c3env2 c3req2
        (save_artifact_version c3env1 c3req1 { versions := [], nextId := 1 } 1 []).db 2
        (save_artifact_version c3env1 c3req1 { versions := [], nextId := 1 } 1 []).fs).result =
      .error 409 ∧
    (save_artifact_version c3env2 c3req2
        (save_artifact_version c3env1 c3req1 { versions := [], nextId := 1 } 1 []).db 2
        (save_artifact_version c3env1 c3req1 { versions := [], nextId := 1 } 1 []).fs).db =
      (save_artifact_version c3env1 c3req1 { versions := [], nextId := 1 } 1 []).db ∧
    fsRead (save_artifact_version c3env2 c3req2
        (save_artifact_version c3env1 c3req1 { versions := [], nextId := 1 } 1 []).db 2
        (save_artifact_version c3env1 c3req1 { versions := [], nextId := 1 } 1 []).fs).fs
      (archivePathOf c3env2 c3req2) = some [2] ∧
    fsRead (save_artifact_version c3env2 c3req2
        (save_artifact_version c3env1 c3req1 { versions := [], nextId := 1 } 1 []).db 2
        (save_artifact_version c3env1 c3req1 { versions := [], nextId := 1 } 1 []).fs).fs
      (archivePathOf c3env1 c3req1) = some [1] ∧
    archivePathOf c3env1 c3req1 ≠ archivePathOf c3env2 c3req2 :=
  c3_duplicate_name c3env1 c3env2 c3req1 c3req2 { versions := [], nextId := 1 } 1 2 []
    none none rfl rfl rfl rfl rfl rfl rfl (by decide) (by decide) (by decide)

end ChiveSave

